import Mathlib

/-!
Verification of the authentication/configuration slice of the
`fibonacci-farm` backend (files `backend/app/security.py`,
`backend/app/config.py`, `backend/app/db.py`,
`backend/app/models/user.py`).

Modelling conventions:
* Times are integer seconds since the epoch (`Int`); JWT `exp` claims are
  absolute epoch seconds, durations (`timedelta`) are signed seconds.
* A signed JWT is embedded as a record carrying its claim set together
  with the key and algorithm it was signed with; signature verification
  is key/algorithm equality, which is the observable behaviour of
  HMAC-style signing for distinct keys.
* Python falsiness of strings/None (`if not email`) is embedded
  explicitly (`Option String` being `none` or `some ""`).
* Errors raised as `HTTPException(status, detail)` are embedded as an
  `Except` error value holding the status code and detail string.
-/

namespace FibFarm

/-! ### String helpers: Python `str.strip` and `str.lower` (ASCII model) -/

/-- Python whitespace characters stripped by `str.strip()` (ASCII part). -/
def pyIsSpace (c : Char) : Bool :=
  c = ' ' || c = '\t' || c = '\n' || c = '\x0d' || c = '\x0b' || c = '\x0c'

/-- Python `str.strip()`: drop leading and trailing whitespace. -/
def pyStrip (s : String) : String :=
  ⟨((s.data.dropWhile pyIsSpace).reverse.dropWhile pyIsSpace).reverse⟩

/-- ASCII lower-casing of one character, Python `str.lower` restricted to
ASCII (the only case the repository exercises): codepoints 65–90
(`A`–`Z`) shift by 32. -/
def pyLowerChar (c : Char) : Char :=
  if 65 ≤ c.toNat ∧ c.toNat ≤ 90 then Char.ofNat (c.toNat + 32) else c

/-- Python `str.lower()` (ASCII model). -/
def pyLower (s : String) : String :=
  ⟨s.data.map pyLowerChar⟩

/-- Python `str.startswith(prefix)`. -/
def pyStartswith (s p : String) : Bool :=
  p.data.isPrefixOf s.data

/-- Core of Python `str.split(sep)` for a one-character separator, over
the character list: splitting the empty string gives one empty item. -/
def splitCharList (sep : Char) : List Char → List (List Char)
  | [] => [[]]
  | c :: cs =>
    match splitCharList sep cs with
    | [] => if c = sep then [[], []] else [[c]]
    | h :: t => if c = sep then [] :: h :: t else (c :: h) :: t

/-- Python `v.split(",")`. -/
def pySplitComma (s : String) : List String :=
  (splitCharList ',' s.data).map (fun l => ⟨l⟩)

/-! ### `backend/app/config.py` -/

/-- `Settings._check_db_scheme`: field validator for `database_url`.
Rejects (raises `ValueError`, i.e. pydantic `ValidationError` at load
time) any value not starting with `postgresql+asyncpg://`, returns the
value unchanged otherwise. -/
def check_db_scheme (v : String) : Except String String :=
  if pyStartswith v "postgresql+asyncpg://" then
    Except.ok v
  else
    Except.error "DATABASE_URL must start with postgresql+asyncpg://"

/-- The run-time type of the raw `CORS_ALLOW_ORIGINS` value handed to the
`mode="before"` validator: already a list, a string, or anything else. -/
inductive CorsRaw where
  | ofList (l : List String)
  | ofStr (s : String)
  | other
deriving DecidableEq, Repr

/-- `Settings._parse_cors_csv`: a list passes through unchanged; a string
is stripped, `"*"` maps to `["*"]`, any other string is split on commas
with each item stripped and empty items dropped (`if x.strip()`); any
other type yields `["*"]`. -/
def parse_cors_csv (v : CorsRaw) : List String :=
  match v with
  | CorsRaw.ofList l => l
  | CorsRaw.ofStr s =>
      let s := pyStrip s
      if s = "*" then ["*"]
      else ((pySplitComma s).map pyStrip).filter (fun x => x ≠ "")
  | CorsRaw.other => ["*"]

/-! ### `backend/app/models/user.py` -/

inductive UserRole where
  | user
  | admin
deriving DecidableEq, Repr

/-- The `users` entity (the columns the authentication flow reads). -/
structure User where
  email : String
  hashed_password : String
  role : UserRole
  is_active : Bool
deriving DecidableEq, Repr

/-- `User._lower_email`, the `@validates("email")` hook: every value
assigned to `email` is stored stripped and lower-cased. -/
def lower_email (value : String) : String :=
  pyLower (pyStrip value)

/-- Constructing a `User` row: the email assignment passes through the
`_lower_email` validator. -/
def mkUser (email hashed_password : String) (role : UserRole)
    (is_active : Bool) : User :=
  { email := lower_email email
    hashed_password := hashed_password
    role := role
    is_active := is_active }

/-- Lookup under the functional unique index `uq_users_email_lower` on
`lower(email)`: a row matches a queried email when the lowered stored
value equals the lowered query. -/
def getByEmailLower (users : List User) (q : String) : Option User :=
  users.find? (fun u => pyLower u.email = pyLower q)

/-! ### `backend/app/security.py`: JWT issue / decode -/

/-- The claim set `{"sub": subject, "exp": expire}` built by
`create_access_token`; `sub` is optional to cover foreign tokens where
the claim is absent. -/
structure JwtClaims where
  sub : Option String
  exp : Int
deriving DecidableEq, Repr

/-- A signed token: the claim set plus the key and algorithm used by
`jwt.encode`.  Verification observes exactly whether key and algorithm
match the verifier's configuration. -/
structure Jwt where
  claims : JwtClaims
  key : String
  alg : String
deriving DecidableEq, Repr

/-- `create_access_token settings now subject expires_delta`:
`expire = now + (expires_delta or timedelta(minutes=settings.access_token_expire_minutes))`.
Python's `or` treats `timedelta(0)` as falsy, so a zero delta also falls
back to the configured default.  `expireMinutes` is the configured
`access_token_expire_minutes`. -/
def create_access_token (secret alg : String) (expireMinutes : Int)
    (now : Int) (subject : String) (expires_delta : Option Int) : Jwt :=
  let defaultSecs := expireMinutes * 60
  let ttl := match expires_delta with
    | some d => if d = 0 then defaultSecs else d
    | none => defaultSecs
  { claims := { sub := some subject, exp := now + ttl }
    key := secret
    alg := alg }

/-- The `jose.JWTError`-level outcomes of `jwt.decode`. -/
inductive JoseError where
  | badAlgorithm
  | badSignature
  | expiredSignature
deriving DecidableEq, Repr

/-- `jose.jwt.decode(token, key, algorithms=[alg], options={"verify_exp": True}, leeway=leeway)`
at time `now`: the token's algorithm must be in the allowed list, the
signature must verify under `key`, and the `exp` claim must satisfy
`¬ (exp < now - leeway)` (python-jose `_validate_exp`). -/
def joseDecode (secret alg : String) (leeway : Int) (now : Int)
    (token : Jwt) : Except JoseError JwtClaims :=
  if token.alg ≠ alg then Except.error JoseError.badAlgorithm
  else if token.key ≠ secret then Except.error JoseError.badSignature
  else if token.claims.exp < now - leeway then
    Except.error JoseError.expiredSignature
  else Except.ok token.claims

/-- An `HTTPException(status_code, detail)`. -/
structure HttpError where
  status : Nat
  detail : String
deriving DecidableEq, Repr

/-- `decode_access_token(token, leeway_seconds=10)` at time `now`: decode
via `jose.jwt.decode`; any `JWTError` becomes `401 Could not validate
credentials`; then `payload.get("sub")` is required to be truthy
(`if not email`, i.e. neither absent nor the empty string), else
`401 Invalid token payload`; otherwise the subject is returned. -/
def decode_access_token (secret alg : String) (now : Int) (token : Jwt)
    (leeway_seconds : Int := 10) : Except HttpError String :=
  match joseDecode secret alg leeway_seconds now token with
  | Except.error _ =>
      Except.error { status := 401, detail := "Could not validate credentials" }
  | Except.ok payload =>
      match payload.sub with
      | none =>
          Except.error { status := 401, detail := "Invalid token payload" }
      | some email =>
          if email = "" then
            Except.error { status := 401, detail := "Invalid token payload" }
          else
            Except.ok email

/-! ### `backend/app/security.py`: current-user resolution -/

/-- `get_current_user`: decode the token to an email, look the user up
through `UserRepository.get_by_email` (embedded as the function
`lookup`), `401 User not found` when absent, `403 User is inactive` when
inactive, otherwise the user. -/
def get_current_user (secret alg : String) (now : Int)
    (lookup : String → Option User) (token : Jwt) : Except HttpError User :=
  match decode_access_token secret alg now token with
  | Except.error e => Except.error e
  | Except.ok email =>
      match lookup email with
      | none => Except.error { status := 401, detail := "User not found" }
      | some user =>
          if user.is_active = false then
            Except.error { status := 403, detail := "User is inactive" }
          else
            Except.ok user

/-- `get_current_admin`: the role gate on an already-resolved user. -/
def get_current_admin (current_user : User) : Except HttpError User :=
  if current_user.role ≠ UserRole.admin then
    Except.error { status := 403, detail := "Admin privileges required" }
  else
    Except.ok current_user

/-! ### `backend/app/db.py`: health probe -/

/-- Why the awaited ping inside `check_database` can fail: the
`asyncio.wait_for` timeout, or any exception from connecting/executing. -/
inductive PingError where
  | timedOut
  | connectionFailed
deriving DecidableEq, Repr

/-- `check_database`: awaits the trivial `SELECT 1` ping under
`asyncio.wait_for`; the outcome of that awaited call is the argument.
`try: ...; return True except Exception: return False`. -/
def check_database (ping : Except PingError Unit) : Bool :=
  match ping with
  | Except.ok _ => true
  | Except.error _ => false

/-! ### Theorems -/

/-- C1 counterexample: the claim quantifies over *every* subject string,
but for the empty subject the issued token is rejected by
`decode_access_token` (`if not email` treats `""` as falsy), so the
round trip does not return the subject. -/
theorem C1_counterexample :
    ¬ decode_access_token "k" "HS256" 0
        (create_access_token "k" "HS256" 60 0 "" (some 1)) = Except.ok "" := by
  intro h
  rw [show decode_access_token "k" "HS256" 0
        (create_access_token "k" "HS256" 60 0 "" (some 1)) =
        Except.error { status := 401, detail := "Invalid token payload" } from rfl] at h
  exact Except.noConfusion h

/-- C1 (amended to nonempty subjects): for every nonempty subject `s` and
every ttl > 0, decoding immediately after issuing, with the same secret
and algorithm at the same instant, returns exactly `s`. -/
theorem C1_issue_decode_roundtrip (secret alg : String) (expireMinutes : Int)
    (s : String) (hs : s ≠ "") (ttl : Int) (httl : 0 < ttl) (now : Int) :
    decode_access_token secret alg now
      (create_access_token secret alg expireMinutes now s (some ttl)) =
      Except.ok s := by
  have h0 : ttl ≠ 0 := by omega
  have hexp : ¬ (now + ttl < now - 10) := by omega
  simp [decode_access_token, create_access_token, joseDecode, h0, hexp, hs]

/-- C1 witness: concrete instance of the round trip. -/
theorem C1_issue_decode_roundtrip_witness :
    decode_access_token "k" "HS256" 100
      (create_access_token "k" "HS256" 60 100 "alice@example.com" (some 30)) =
      Except.ok "alice@example.com" :=
  C1_issue_decode_roundtrip "k" "HS256" 60 "alice@example.com" (by decide)
    30 (by decide) 100

/-- C2: the identity-resolution pipeline is a strict sequence.  A token
decode failure propagates unchanged; when the token decodes to an email,
a missing user yields `401 User not found`, an inactive user yields
`403 User is inactive`, an active user is returned; and the role gate on
an active user fails with `403 Admin privileges required` exactly when
the role is not admin. -/
theorem C2_identity_pipeline (secret alg : String) (now : Int)
    (lookup : String → Option User) (token : Jwt) :
    (∀ e, decode_access_token secret alg now token = Except.error e →
      get_current_user secret alg now lookup token = Except.error e) ∧
    (∀ email, decode_access_token secret alg now token = Except.ok email →
      (lookup email = none →
        get_current_user secret alg now lookup token =
          Except.error { status := 401, detail := "User not found" }) ∧
      (∀ u, lookup email = some u → u.is_active = false →
        get_current_user secret alg now lookup token =
          Except.error { status := 403, detail := "User is inactive" }) ∧
      (∀ u, lookup email = some u → u.is_active = true →
        get_current_user secret alg now lookup token = Except.ok u)) ∧
    (∀ u : User, u.is_active = true →
      ((get_current_admin u =
          Except.error { status := 403, detail := "Admin privileges required" }) ↔
        u.role ≠ UserRole.admin) ∧
      (u.role = UserRole.admin → get_current_admin u = Except.ok u)) := by
  refine ⟨?_, ?_, ?_⟩
  · intro e he
    simp [get_current_user, he]
  · intro email he
    refine ⟨?_, ?_, ?_⟩
    · intro hnone
      simp [get_current_user, he, hnone]
    · intro u hu hact
      simp [get_current_user, he, hu, hact]
    · intro u hu hact
      simp [get_current_user, he, hu, hact]
  · intro u _
    constructor
    · constructor
      · intro hgate hrole
        simp [get_current_admin, hrole] at hgate
      · intro hrole
        simp [get_current_admin, hrole]
    · intro hrole
      simp [get_current_admin, hrole]

/-- C2 witness: a concrete token, three concrete repositories and a
concrete non-admin user exercise every branch of the pipeline. -/
theorem C2_identity_pipeline_witness :
    (get_current_user "k" "HS256" 0 (fun _ => none)
        (create_access_token "k" "HS256" 60 0 "bob@example.com" (some 60)) =
      Except.error { status := 401, detail := "User not found" }) ∧
    (get_current_user "k" "HS256" 0
        (fun _ => some (mkUser "bob@example.com" "h" UserRole.user false))
        (create_access_token "k" "HS256" 60 0 "bob@example.com" (some 60)) =
      Except.error { status := 403, detail := "User is inactive" }) ∧
    (get_current_user "k" "HS256" 0
        (fun _ => some (mkUser "bob@example.com" "h" UserRole.user true))
        (create_access_token "k" "HS256" 60 0 "bob@example.com" (some 60)) =
      Except.ok (mkUser "bob@example.com" "h" UserRole.user true)) ∧
    (get_current_admin (mkUser "bob@example.com" "h" UserRole.user true) =
      Except.error { status := 403, detail := "Admin privileges required" }) := by
  refine ⟨?_, ?_, ?_, ?_⟩
  · exact ((C2_identity_pipeline "k" "HS256" 0 (fun _ => none)
      (create_access_token "k" "HS256" 60 0 "bob@example.com" (some 60))).2.1
      "bob@example.com" (by rfl)).1 rfl
  · exact ((C2_identity_pipeline "k" "HS256" 0
      (fun _ => some (mkUser "bob@example.com" "h" UserRole.user false))
      (create_access_token "k" "HS256" 60 0 "bob@example.com" (some 60))).2.1
      "bob@example.com" (by rfl)).2.1 _ rfl rfl
  · exact ((C2_identity_pipeline "k" "HS256" 0
      (fun _ => some (mkUser "bob@example.com" "h" UserRole.user true))
      (create_access_token "k" "HS256" 60 0 "bob@example.com" (some 60))).2.1
      "bob@example.com" (by rfl)).2.2 _ rfl rfl
  · exact ((C2_identity_pipeline "k" "HS256" 0 (fun _ => none)
      (create_access_token "k" "HS256" 60 0 "bob@example.com" (some 60))).2.2
      (mkUser "bob@example.com" "h" UserRole.user true) rfl).1.mpr (by decide)

/-- C3: a token issued with ttl = -1 second carries `exp = now₀ - 1`;
once the 10-second leeway has elapsed past `exp` the jose layer rejects
it with `ExpiredSignatureError` and `decode_access_token` fails, while
at any instant up to `exp + leeway` it still decodes to the subject. -/
theorem C3_expired_token_leeway (secret alg : String) (expireMinutes now0 now : Int)
    (s : String) (hs : s ≠ "") :
    (now0 - 1 + 10 < now →
      joseDecode secret alg 10 now
          (create_access_token secret alg expireMinutes now0 s (some (-1))) =
        Except.error JoseError.expiredSignature ∧
      decode_access_token secret alg now
          (create_access_token secret alg expireMinutes now0 s (some (-1))) =
        Except.error { status := 401, detail := "Could not validate credentials" }) ∧
    (now ≤ now0 - 1 + 10 →
      decode_access_token secret alg now
          (create_access_token secret alg expireMinutes now0 s (some (-1))) =
        Except.ok s) := by
  constructor
  · intro hpast
    have hexp : now0 + -1 < now - 10 := by omega
    constructor
    · simp [joseDecode, create_access_token, hexp]
    · simp [decode_access_token, joseDecode, create_access_token, hexp]
  · intro hbefore
    have hexp : ¬ (now0 + -1 < now - 10) := by omega
    simp [decode_access_token, joseDecode, create_access_token, hexp, hs]

/-- C3 witness: issued at t = 100 with ttl = -1 (so exp = 99), the token
is rejected at t = 120 and still accepted at t = 105. -/
theorem C3_expired_token_leeway_witness :
    decode_access_token "k" "HS256" 120
        (create_access_token "k" "HS256" 60 100 "a@b" (some (-1))) =
      Except.error { status := 401, detail := "Could not validate credentials" } ∧
    decode_access_token "k" "HS256" 105
        (create_access_token "k" "HS256" 60 100 "a@b" (some (-1))) =
      Except.ok "a@b" :=
  ⟨((C3_expired_token_leeway "k" "HS256" 60 100 120 "a@b" (by decide)).1
      (by decide)).2,
    (C3_expired_token_leeway "k" "HS256" 60 100 105 "a@b" (by decide)).2
      (by decide)⟩

/-- C4: any token whose signing key differs from the configured secret,
or whose algorithm differs from the single configured algorithm, is
rejected by `decode_access_token` with `401 Could not validate
credentials`, with no assumption on its payload. -/
theorem C4_wrong_key_or_algorithm (secret alg : String) (now : Int) (token : Jwt)
    (hbad : token.key ≠ secret ∨ token.alg ≠ alg) :
    decode_access_token secret alg now token =
      Except.error { status := 401, detail := "Could not validate credentials" } := by
  by_cases halg : token.alg = alg
  · rcases hbad with hkey | halg2
    · simp [decode_access_token, joseDecode, halg, hkey]
    · exact absurd halg halg2
  · simp [decode_access_token, joseDecode, halg]

/-- C4 witness: an unexpired, well-formed token signed with a different
key, and one with a different algorithm, are both rejected. -/
theorem C4_wrong_key_or_algorithm_witness :
    decode_access_token "k" "HS256" 0
        { claims := { sub := some "a@b", exp := 1000 }, key := "other", alg := "HS256" } =
      Except.error { status := 401, detail := "Could not validate credentials" } ∧
    decode_access_token "k" "HS256" 0
        { claims := { sub := some "a@b", exp := 1000 }, key := "k", alg := "RS256" } =
      Except.error { status := 401, detail := "Could not validate credentials" } :=
  ⟨C4_wrong_key_or_algorithm "k" "HS256" 0 _ (Or.inl (by decide)),
    C4_wrong_key_or_algorithm "k" "HS256" 0 _ (Or.inr (by decide))⟩

/-- `Char.ofNat` of a valid codepoint round-trips through `toNat`. -/
lemma char_toNat_ofNat_valid {n : Nat} (h : n.isValidChar) :
    (Char.ofNat n).toNat = n := by
  rw [Char.ofNat, dif_pos h]
  rfl

/-- Lower-casing one character is idempotent. -/
lemma pyLowerChar_idem (c : Char) : pyLowerChar (pyLowerChar c) = pyLowerChar c := by
  by_cases h : 65 ≤ c.toNat ∧ c.toNat ≤ 90
  · have hvalid : (c.toNat + 32).isValidChar := Or.inl (by omega)
    have hval : (Char.ofNat (c.toNat + 32)).toNat = c.toNat + 32 :=
      char_toNat_ofNat_valid hvalid
    have h1 : pyLowerChar c = Char.ofNat (c.toNat + 32) := by
      simp only [pyLowerChar, if_pos h]
    have hcond : ¬ (65 ≤ (Char.ofNat (c.toNat + 32)).toNat ∧
        (Char.ofNat (c.toNat + 32)).toNat ≤ 90) := by
      rw [hval]
      omega
    rw [h1]
    simp only [pyLowerChar, if_neg hcond]
  · have h1 : pyLowerChar c = c := by
      simp only [pyLowerChar, if_neg h]
    rw [h1, h1]

/-- Lower-casing a string is idempotent. -/
lemma pyLower_idem (s : String) : pyLower (pyLower s) = pyLower s := by
  simp only [pyLower, List.map_map]
  congr 1
  apply List.map_congr_left
  intro c _
  exact pyLowerChar_idem c

/-- C5: every value assigned to `User.email` is stored stripped and
lower-cased; lowering is idempotent, so the stored value is its own key
under the functional index on `lower(email)`; and concretely, storing
`"User@Example.COM "` makes a lookup for `"user@example.com"` hit. -/
theorem C5_email_normalized (hp : String) (r : UserRole) (a : Bool) :
    (∀ v, (mkUser v hp r a).email = pyLower (pyStrip v)) ∧
    (∀ v, pyLower (mkUser v hp r a).email = (mkUser v hp r a).email) ∧
    ((mkUser "User@Example.COM " hp r a).email = "user@example.com" ∧
      getByEmailLower [mkUser "User@Example.COM " hp r a] "user@example.com" =
        some (mkUser "User@Example.COM " hp r a)) := by
  refine ⟨fun v => rfl, ?_, ?_, ?_⟩
  · intro v
    exact pyLower_idem (pyStrip v)
  · rfl
  · have hmatch : pyLower (mkUser "User@Example.COM " hp r a).email =
        pyLower "user@example.com" := rfl
    simp [getByEmailLower, List.find?, hmatch]

/-- C6: `Settings._check_db_scheme` accepts exactly the values starting
with `postgresql+asyncpg://`, returning them unchanged, and fails (at
configuration load, before any connection attempt) on all others. -/
theorem C6_database_url_scheme (v : String) :
    ((check_db_scheme v).isOk = true ↔ pyStartswith v "postgresql+asyncpg://" = true) ∧
    (pyStartswith v "postgresql+asyncpg://" = true → check_db_scheme v = Except.ok v) ∧
    (¬ pyStartswith v "postgresql+asyncpg://" = true →
      ∃ msg, check_db_scheme v = Except.error msg) := by
  refine ⟨?_, ?_, ?_⟩
  · by_cases h : pyStartswith v "postgresql+asyncpg://" = true
    · simp [check_db_scheme, h, Except.isOk, Except.toBool]
    · simp [check_db_scheme, h, Except.isOk, Except.toBool]
  · intro h
    simp [check_db_scheme, h]
  · intro h
    refine ⟨"DATABASE_URL must start with postgresql+asyncpg://", ?_⟩
    simp [check_db_scheme, h]

set_option maxRecDepth 8192 in
/-- C6 witness: a conforming URL passes through unchanged; a URL with
another scheme is rejected. -/
theorem C6_database_url_scheme_witness :
    check_db_scheme "postgresql+asyncpg://db:5432/app" =
      Except.ok "postgresql+asyncpg://db:5432/app" ∧
    ∃ msg, check_db_scheme "sqlite:///app.db" = Except.error msg :=
  ⟨(C6_database_url_scheme "postgresql+asyncpg://db:5432/app").2.1 (by decide),
    (C6_database_url_scheme "sqlite:///app.db").2.2 (by decide)⟩

/-- C8: `check_database` is total on the outcome of the awaited ping and
returns `True` exactly when the trivial query completed within the
timeout, `False` on every failure (timeout or exception) instead of
propagating it. -/
theorem C8_health_probe_total (ping : Except PingError Unit) :
    (check_database ping = true ↔ ping = Except.ok ()) ∧
    (check_database ping = false ↔ ∃ e, ping = Except.error e) := by
  cases ping with
  | ok u =>
      cases u
      simp [check_database]
  | error e =>
      simp [check_database]

/-- When `jose.jwt.decode` succeeds, the payload it returns is the
token's claim set. -/
lemma joseDecode_ok_claims {secret alg : String} {leeway now : Int}
    {token : Jwt} {p : JwtClaims}
    (hj : joseDecode secret alg leeway now token = Except.ok p) :
    p = token.claims := by
  unfold joseDecode at hj
  by_cases h1 : token.alg ≠ alg
  · rw [if_pos h1] at hj
    exact Except.noConfusion hj
  · rw [if_neg h1] at hj
    by_cases h2 : token.key ≠ secret
    · rw [if_pos h2] at hj
      exact Except.noConfusion hj
    · rw [if_neg h2] at hj
      by_cases h3 : token.claims.exp < now - leeway
      · rw [if_pos h3] at hj
        exact Except.noConfusion hj
      · rw [if_neg h3] at hj
        exact (Except.ok.inj hj).symm

/-- C9: `decode_access_token` rejects a present-but-empty `sub` claim
just as it rejects an absent one (`if not email`), and consequently a
token issued for the empty-string subject is never decoded successfully,
whatever the times, leeway and issuance parameters. -/
theorem C9_falsy_subject_rejected :
    (∀ (secret alg : String) (now leeway : Int) (token : Jwt),
      token.claims.sub = none ∨ token.claims.sub = some "" →
      ∀ s, decode_access_token secret alg now token leeway ≠ Except.ok s) ∧
    (∀ (secret alg : String) (expireMinutes issueNow decodeNow leeway : Int)
        (ed : Option Int) (s : String),
      decode_access_token secret alg decodeNow
          (create_access_token secret alg expireMinutes issueNow "" ed) leeway ≠
        Except.ok s) := by
  have hmain : ∀ (secret alg : String) (now leeway : Int) (token : Jwt),
      token.claims.sub = none ∨ token.claims.sub = some "" →
      ∀ s, decode_access_token secret alg now token leeway ≠ Except.ok s := by
    intro secret alg now leeway token hsub s h
    unfold decode_access_token at h
    cases hj : joseDecode secret alg leeway now token with
    | error e => rw [hj] at h; exact Except.noConfusion h
    | ok payload =>
        rw [hj, joseDecode_ok_claims hj] at h
        rcases hsub with hn | he
        · simp [hn] at h
        · simp [he] at h
  refine ⟨hmain, ?_⟩
  intro secret alg expireMinutes issueNow decodeNow leeway ed s
  exact hmain secret alg decodeNow leeway
    (create_access_token secret alg expireMinutes issueNow "" ed)
    (Or.inr rfl) s

/-- C9 witness: a validly signed, unexpired token whose `sub` is the
empty string is rejected. -/
theorem C9_falsy_subject_rejected_witness :
    decode_access_token "k" "HS256" 0
        { claims := { sub := some "", exp := 1000 }, key := "k", alg := "HS256" }
        10 ≠ Except.ok "" :=
  C9_falsy_subject_rejected.1 "k" "HS256" 0 10
    { claims := { sub := some "", exp := 1000 }, key := "k", alg := "HS256" }
    (Or.inr rfl) ""

/-- C10: the CORS validator is total and normalizing: lists pass through
unchanged; a string stripping to `"*"` yields `["*"]`; any other string
yields the comma-separated items of the stripped string, each stripped,
with empty items dropped — so no empty entry survives; any other type
yields `["*"]`. -/
theorem C10_cors_parser_total :
    (∀ l, parse_cors_csv (CorsRaw.ofList l) = l) ∧
    (∀ s, pyStrip s = "*" → parse_cors_csv (CorsRaw.ofStr s) = ["*"]) ∧
    (∀ s, pyStrip s ≠ "*" →
      parse_cors_csv (CorsRaw.ofStr s) =
        ((pySplitComma (pyStrip s)).map pyStrip).filter (fun x => x ≠ "") ∧
      "" ∉ parse_cors_csv (CorsRaw.ofStr s)) ∧
    parse_cors_csv CorsRaw.other = ["*"] := by
  refine ⟨fun l => rfl, ?_, ?_, rfl⟩
  · intro s hstar
    simp [parse_cors_csv, hstar]
  · intro s hstar
    have hval : parse_cors_csv (CorsRaw.ofStr s) =
        ((pySplitComma (pyStrip s)).map pyStrip).filter (fun x => x ≠ "") := by
      simp [parse_cors_csv, hstar]
    refine ⟨hval, ?_⟩
    rw [hval]
    intro hmem
    have := List.of_mem_filter hmem
    simp at this

set_option maxRecDepth 8192 in
/-- C10 witness: a wildcard padded with whitespace, and a messy CSV with
empty items, both normalize as stated. -/
theorem C10_cors_parser_total_witness :
    parse_cors_csv (CorsRaw.ofStr "  *  ") = ["*"] ∧
    parse_cors_csv (CorsRaw.ofStr " https://a.com, ,https://b.com ") =
      ["https://a.com", "https://b.com"] ∧
    "" ∉ parse_cors_csv (CorsRaw.ofStr " https://a.com, ,https://b.com ") := by
  refine ⟨C10_cors_parser_total.2.1 "  *  " (by decide), ?_, ?_⟩
  · rw [(C10_cors_parser_total.2.2.1 " https://a.com, ,https://b.com "
      (by decide)).1]
    decide
  · exact (C10_cors_parser_total.2.2.1 " https://a.com, ,https://b.com "
      (by decide)).2

end FibFarm
